import Mathlib

/-!
Shallow embedding of `pkg/jaeger/bridge.go`: the conversion of Jaeger
Thrift-encoded spans/tags/logs/references into the canonical `model/v1`
representation, plus the control flow of the `HandleTraces` HTTP handler.

Modelling conventions:
* Go `int64` / `int32` fields are `Int`; arithmetic that Go performs on
  `int64` wraps, which we model explicitly with `wrap64`.
* Go `uint64` fields (`v1.SpanID`, the halves of `v1.TraceID`) are `Nat`,
  with the Go conversion `uint64(x)` embedded as `uint64OfInt`
  (reduction modulo 2^64, i.e. two's-complement bit reinterpretation).
* Go slices that the code distinguishes from `nil` (tag lists, log lists)
  are `Option (List _)`: `none` is the nil slice, `some l` a non-nil slice.
  Slices where nil and empty are never distinguished are plain `List _`.
* `time.Time` values are the number of nanoseconds since the Unix epoch
  (an `Int`), which `time.Unix(0, n)` represents exactly for every `int64`
  `n`; `time.Duration` is its `Int` count of nanoseconds.
* The `float64` payload of a tag is carried as its 64-bit pattern (`Nat`):
  the bridge only copies doubles, never computes with them, and the Go
  zero value `0.0` has bit pattern 0.
-/

namespace JaegerBridge

/-- Two's-complement wraparound of Go `int64` arithmetic: the unique
representative of `i` modulo 2^64 lying in `[-2^63, 2^63)`. -/
def wrap64 (i : Int) : Int :=
  (i + 2 ^ 63) % 2 ^ 64 - 2 ^ 63

/-- Go's `uint64(i)` applied to an `int64` value: the (nonnegative) value
with the same 64-bit pattern. -/
def uint64OfInt (i : Int) : Nat :=
  (i % 2 ^ 64).toNat

/-- Go's `uint32(i)` applied to an `int32` value (used for `v1.Flags`). -/
def uint32OfInt (i : Int) : Nat :=
  (i % 2 ^ 32).toNat

/-! ### Thrift-side (legacy) enums and structs, from
`jaeger-idl/thrift-gen/jaeger`.  Thrift enums are Go integer types, so an
arbitrary (unknown) numeric value can occur; we keep them as `Int`. -/

def TagType_STRING : Int := 0
def TagType_DOUBLE : Int := 1
def TagType_BOOL : Int := 2
def TagType_LONG : Int := 3
def TagType_BINARY : Int := 4

def SpanRefType_CHILD_OF : Int := 0
def SpanRefType_FOLLOWS_FROM : Int := 1

/-- Thrift `jaeger.Tag`: key, type discriminator, and optional payload
slots (`*string`, `*float64`, `*bool`, `*int64`, `[]byte`). -/
structure Tag where
  Key : String
  VType : Int
  VStr : Option String := none
  VDouble : Option Nat := none
  VBool : Option Bool := none
  VLong : Option Int := none
  VBinary : Option (List Nat) := none
deriving Repr, DecidableEq

/-- Thrift `jaeger.Log`: microsecond timestamp and tag fields. -/
structure Log where
  Timestamp : Int
  Fields : Option (List Tag) := none
deriving Repr, DecidableEq

/-- Thrift `jaeger.SpanRef`: ref-type discriminator, 128-bit trace id as
two signed 64-bit halves, and a signed 64-bit span id. -/
structure SpanRef where
  RefType : Int
  TraceIdLow : Int
  TraceIdHigh : Int
  SpanId : Int
deriving Repr, DecidableEq

/-- Thrift `jaeger.Span`. -/
structure Span where
  TraceIdLow : Int
  TraceIdHigh : Int
  SpanId : Int
  ParentSpanId : Int
  OperationName : String
  References : List SpanRef := []
  Flags : Int := 0
  StartTime : Int
  Duration : Int
  Tags : Option (List Tag) := none
  Logs : Option (List Log) := none
deriving Repr, DecidableEq

/-- Thrift `jaeger.Process`: service name and tags. -/
structure Process where
  ServiceName : String
  Tags : Option (List Tag) := none
deriving Repr, DecidableEq

/-! ### Canonical-side (`model/v1`) enums and structs. -/

def ValueType_STRING : Int := 0
def ValueType_BOOL : Int := 1
def ValueType_INT64 : Int := 2
def ValueType_FLOAT64 : Int := 3
def ValueType_BINARY : Int := 4

/-- `v1.TraceID`: unsigned 128-bit value as two `uint64` halves. -/
structure TraceID where
  High : Nat
  Low : Nat
deriving Repr, DecidableEq

/-- `v1.KeyValue`: key, value-type enum, and one payload field per type;
unused payload fields hold their Go zero value, as in the literal
`v1.KeyValue{Key: t.Key}` the bridge starts from. -/
structure KeyValue where
  Key : String
  VType : Int := ValueType_STRING
  VStr : String := ""
  VBool : Bool := false
  VInt64 : Int := 0
  VFloat64 : Nat := 0
  VBinary : Option (List Nat) := none
deriving Repr, DecidableEq

/-- `v1.Log`: nanosecond absolute timestamp plus converted fields. -/
structure V1Log where
  Timestamp : Int
  Fields : Option (List KeyValue) := none
deriving Repr, DecidableEq

/-- `v1.SpanRef`. -/
structure V1SpanRef where
  TraceID : TraceID
  SpanID : Nat
  RefType : Int
deriving Repr, DecidableEq

/-- `v1.Process`. -/
structure V1Process where
  ServiceName : String := ""
  Tags : Option (List KeyValue) := none
deriving Repr, DecidableEq

/-- `v1.Span` (the fields the bridge populates; `Process` is left unset by
`convertSpan` and attached later by the handler). -/
structure V1Span where
  TraceID : TraceID
  SpanID : Nat
  OperationName : String
  References : List V1SpanRef
  Flags : Nat
  StartTime : Int
  Duration : Int
  Tags : Option (List KeyValue)
  Logs : Option (List V1Log)
  Process : Option V1Process := none
deriving Repr, DecidableEq

/-! ### The conversion functions of `bridge.go`. -/

/-- `convertTag`: Go `switch t.VType` with cases BOOL, LONG, DOUBLE,
BINARY and a `default` arm for STRING and every other value.  Each nil
optional payload leaves the corresponding `v1.KeyValue` field at its zero
value, i.e. contributes `Option.getD` with the zero default. -/
def convertTag (t : Tag) : KeyValue :=
  if t.VType = TagType_BOOL then
    { Key := t.Key, VType := ValueType_BOOL, VBool := t.VBool.getD false }
  else if t.VType = TagType_LONG then
    { Key := t.Key, VType := ValueType_INT64, VInt64 := t.VLong.getD 0 }
  else if t.VType = TagType_DOUBLE then
    { Key := t.Key, VType := ValueType_FLOAT64, VFloat64 := t.VDouble.getD 0 }
  else if t.VType = TagType_BINARY then
    { Key := t.Key, VType := ValueType_BINARY, VBinary := t.VBinary }
  else
    { Key := t.Key, VType := ValueType_STRING, VStr := t.VStr.getD "" }

/-- `convertTags`: `if len(tags) == 0 { return nil }`, else one
`convertTag` per element, in order.  A nil Go slice (`none`) has length
0, so it takes the same branch as an empty one. -/
def convertTags (tags : Option (List Tag)) : Option (List KeyValue) :=
  let l := tags.getD []
  if l.length = 0 then none
  else some (l.map convertTag)

/-- The loop body of `convertLogs`: `time.Unix(0, l.Timestamp *
int64(time.Microsecond))` with `time.Microsecond = 1000` nanoseconds; the
`int64` product wraps. -/
def convertLog (l : Log) : V1Log :=
  { Timestamp := wrap64 (l.Timestamp * 1000)
    Fields := convertTags l.Fields }

/-- `convertLogs`: same nil/empty contract as `convertTags`. -/
def convertLogs (logs : Option (List Log)) : Option (List V1Log) :=
  let l := logs.getD []
  if l.length = 0 then none
  else some (l.map convertLog)

/-- `convertSpanRef`: FOLLOWS_FROM iff the Thrift discriminator is
exactly FOLLOWS_FROM, every other value mapping to CHILD_OF; trace id
halves and span id reinterpreted as `uint64`. -/
def convertSpanRef (r : SpanRef) : V1SpanRef :=
  let refType :=
    if r.RefType = SpanRefType_FOLLOWS_FROM then SpanRefType_FOLLOWS_FROM
    else SpanRefType_CHILD_OF
  { TraceID := { High := uint64OfInt r.TraceIdHigh, Low := uint64OfInt r.TraceIdLow }
    SpanID := uint64OfInt r.SpanId
    RefType := refType }

/-- The scan `convertSpan` performs over the already-converted reference
list: is there a CHILD_OF entry whose span id equals the (reinterpreted)
parent span id? -/
def parentAlreadyPresent (refs : List V1SpanRef) (parentSpanId : Int) : Bool :=
  refs.any fun ref =>
    ref.RefType = SpanRefType_CHILD_OF ∧ ref.SpanID = uint64OfInt parentSpanId

/-- `convertSpan`: trace/span ids reinterpreted unsigned; explicit
references converted in order; a non-zero `ParentSpanId` appends a
synthesized CHILD_OF reference (with the span's own trace id) unless the
scan finds a matching CHILD_OF entry; times scaled from microseconds to
nanoseconds by a (wrapping) `int64` multiplication by 1000. -/
def convertSpan (s : Span) : V1Span :=
  let traceID : TraceID := { High := uint64OfInt s.TraceIdHigh, Low := uint64OfInt s.TraceIdLow }
  let refs0 := s.References.map convertSpanRef
  let refs :=
    if s.ParentSpanId ≠ 0 then
      if parentAlreadyPresent refs0 s.ParentSpanId then refs0
      else refs0 ++ [{ TraceID := traceID
                       SpanID := uint64OfInt s.ParentSpanId
                       RefType := SpanRefType_CHILD_OF }]
    else refs0
  { TraceID := traceID
    SpanID := uint64OfInt s.SpanId
    OperationName := s.OperationName
    References := refs
    Flags := uint32OfInt s.Flags
    StartTime := wrap64 (s.StartTime * 1000)
    Duration := wrap64 (s.Duration * 1000)
    Tags := convertTags s.Tags
    Logs := convertLogs s.Logs }

/-- `convertProcess`: a nil input yields `&v1.Process{}` (present but
zero-valued); the `Option` on the result models the Go pointer, which is
never nil. -/
def convertProcess (p : Option Process) : Option V1Process :=
  match p with
  | none => some {}
  | some q => some { ServiceName := q.ServiceName, Tags := convertTags q.Tags }

/-! ### The `HandleTraces` HTTP handler.

The handler's external collaborators — `io.ReadAll`, `r.Body.Close`, the
Thrift memory-buffer write, `batch.Read`, and `client.PostSpans` — are
modelled as the outcomes they produce on this particular request, carried
in the request record.  Error payloads are `Unit` because the handler
only logs them.  The handler's observable output is the ordered list of
status codes it writes with `w.WriteHeader`. -/

/-- A decoded Thrift `jaeger.Batch`. -/
structure Batch where
  Spans : List Span
  Process : Option Process
deriving Repr, DecidableEq

/-- One inbound request together with the outcomes of the handler's
external calls on it. -/
structure TraceRequest where
  method : String
  /-- outcome of `io.ReadAll(r.Body)` -/
  readBody : Except Unit (List Nat)
  /-- outcome of `r.Body.Close()` (logged, never affects the status) -/
  bodyClose : Except Unit Unit
  /-- outcome of `transport.Write(data)` -/
  bufferWrite : Except Unit Nat
  /-- outcome of `batch.Read(ctx, proto)` -/
  decodeBatch : Except Unit Batch
  /-- outcome of `client.PostSpans(ctx, req)` -/
  postSpans : Except Unit Unit
deriving Repr

def StatusMethodNotAllowed : Nat := 405
def StatusBadRequest : Nat := 400
def StatusInternalServerError : Nat := 500
def StatusAccepted : Nat := 202

/-- The batch the success path builds and submits: every span converted,
with the shared converted process attached to each. -/
def buildBatch (b : Batch) : List V1Span × Option V1Process :=
  let proc := convertProcess b.Process
  (b.Spans.map fun s => { convertSpan s with Process := proc }, proc)

/-- `HandleTraces`, as the list of status codes written, in order. -/
def handleTraces (req : TraceRequest) : List Nat :=
  if req.method ≠ "POST" then [StatusMethodNotAllowed]
  else
    match req.readBody with
    | .error _ => [StatusBadRequest]
    | .ok data =>
      if data.length = 0 then [StatusBadRequest]
      else
        match req.bufferWrite with
        | .error _ => [StatusBadRequest]
        | .ok _ =>
          match req.decodeBatch with
          | .error _ => [StatusBadRequest]
          | .ok _ =>
            match req.postSpans with
            | .error _ => [StatusInternalServerError]
            | .ok _ => [StatusAccepted]

/-! ### Helper lemmas shared by several claims. -/

/-- The reference list `convertSpan` produces, by cases on the parent scan. -/
theorem convertSpan_references_eq (s : Span) :
    (convertSpan s).References =
      if s.ParentSpanId ≠ 0 then
        if parentAlreadyPresent (s.References.map convertSpanRef) s.ParentSpanId then
          s.References.map convertSpanRef
        else
          s.References.map convertSpanRef ++
            [{ TraceID := { High := uint64OfInt s.TraceIdHigh, Low := uint64OfInt s.TraceIdLow }
               SpanID := uint64OfInt s.ParentSpanId
               RefType := SpanRefType_CHILD_OF }]
      else s.References.map convertSpanRef := rfl

/-- The scan succeeds exactly when a converted reference is a CHILD_OF
entry carrying the (reinterpreted) parent span id. -/
theorem parentAlreadyPresent_iff (refs : List V1SpanRef) (pid : Int) :
    parentAlreadyPresent refs pid = true ↔
      ∃ r ∈ refs, r.RefType = SpanRefType_CHILD_OF ∧ r.SpanID = uint64OfInt pid := by
  simp [parentAlreadyPresent, List.any_eq_true]

/-! ### C1 -/

/-- C1: for a span with non-zero `ParentSpanId` whose converted explicit
reference list already contains a CHILD_OF entry with span id equal to
the parent span id, `convertSpan` returns exactly the converted explicit
list — nothing is appended.  The hypothesis places no constraint on the
matching reference's trace id, so the suppression is indeed keyed on
(CHILD_OF, span id) only. -/
theorem convertSpan_suppresses_duplicate_parent (s : Span)
    (hpid : s.ParentSpanId ≠ 0)
    (hmatch : ∃ r ∈ s.References.map convertSpanRef,
      r.RefType = SpanRefType_CHILD_OF ∧ r.SpanID = uint64OfInt s.ParentSpanId) :
    (convertSpan s).References = s.References.map convertSpanRef := by
  rw [convertSpan_references_eq, if_pos hpid,
    if_pos ((parentAlreadyPresent_iff _ _).mpr hmatch)]

/-- A span whose single explicit CHILD_OF reference matches
`ParentSpanId` by span id while pointing into a *different* trace. -/
def c1Span : Span :=
  { TraceIdLow := 1, TraceIdHigh := 0, SpanId := 3, ParentSpanId := 2
    OperationName := "op"
    References := [{ RefType := SpanRefType_CHILD_OF, TraceIdLow := 99, TraceIdHigh := 7, SpanId := 2 }]
    StartTime := 0, Duration := 100 }

/-- C1 witness: the cross-trace duplicate is still suppressed. -/
theorem convertSpan_suppresses_duplicate_parent_witness :
    (convertSpan c1Span).References = c1Span.References.map convertSpanRef :=
  convertSpan_suppresses_duplicate_parent c1Span (by decide)
    ⟨convertSpanRef { RefType := SpanRefType_CHILD_OF, TraceIdLow := 99, TraceIdHigh := 7, SpanId := 2 },
      by simp [c1Span], by decide⟩

/-! ### C2 -/

/-- The reference `convertSpan` synthesizes from `ParentSpanId`: CHILD_OF,
the parent span id, and the span's *own* trace id. -/
def synthParentRef (s : Span) : V1SpanRef :=
  { TraceID := { High := uint64OfInt s.TraceIdHigh, Low := uint64OfInt s.TraceIdLow }
    SpanID := uint64OfInt s.ParentSpanId
    RefType := SpanRefType_CHILD_OF }

/-- C2: a zero `ParentSpanId` leaves the converted explicit reference
list untouched; a non-zero `ParentSpanId` with no matching CHILD_OF
entry appends exactly one synthesized CHILD_OF reference, last, carrying
the parent span id and the span's own trace id. -/
theorem convertSpan_synthesizes_parent (s : Span) :
    (s.ParentSpanId = 0 →
      (convertSpan s).References = s.References.map convertSpanRef) ∧
    (s.ParentSpanId ≠ 0 →
      (∀ r ∈ s.References.map convertSpanRef,
        ¬(r.RefType = SpanRefType_CHILD_OF ∧ r.SpanID = uint64OfInt s.ParentSpanId)) →
      (convertSpan s).References =
        s.References.map convertSpanRef ++ [synthParentRef s]) := by
  constructor
  · intro h
    rw [convertSpan_references_eq, if_neg (by simp [h])]
  · intro h hnone
    have hp : ¬ parentAlreadyPresent (s.References.map convertSpanRef) s.ParentSpanId = true := by
      rw [parentAlreadyPresent_iff]
      rintro ⟨r, hr, h1, h2⟩
      exact hnone r hr ⟨h1, h2⟩
    rw [convertSpan_references_eq, if_pos h, if_neg hp]
    rfl

/-- A span with a non-zero `ParentSpanId` and one explicit FOLLOWS_FROM
reference that does not match it. -/
def c2Span : Span :=
  { TraceIdLow := 5, TraceIdHigh := 6, SpanId := 2, ParentSpanId := 1
    OperationName := "op"
    References := [{ RefType := SpanRefType_FOLLOWS_FROM, TraceIdLow := 5, TraceIdHigh := 6, SpanId := 9 }]
    StartTime := 0, Duration := 100 }

/-- C2 witness: the synthesized CHILD_OF parent reference is appended
after the explicit reference. -/
theorem convertSpan_synthesizes_parent_witness :
    (convertSpan c2Span).References =
      c2Span.References.map convertSpanRef ++ [synthParentRef c2Span] :=
  (convertSpan_synthesizes_parent c2Span).2 (by decide) (by decide)

/-! ### C3 -/

/-- C3: the converted reference type is FOLLOWS_FROM exactly when the
legacy discriminator is FOLLOWS_FROM; every other discriminator value,
CHILD_OF and unknown values alike, yields CHILD_OF. -/
theorem convertSpanRef_refType_binary (r : SpanRef) :
    ((convertSpanRef r).RefType = SpanRefType_FOLLOWS_FROM ↔
      r.RefType = SpanRefType_FOLLOWS_FROM) ∧
    (r.RefType ≠ SpanRefType_FOLLOWS_FROM →
      (convertSpanRef r).RefType = SpanRefType_CHILD_OF) := by
  unfold convertSpanRef
  by_cases h : r.RefType = SpanRefType_FOLLOWS_FROM <;>
    simp [h, SpanRefType_CHILD_OF, SpanRefType_FOLLOWS_FROM]

/-- C3 witness: an unknown discriminator (7) is not FOLLOWS_FROM, hence
converts to CHILD_OF. -/
theorem convertSpanRef_refType_binary_witness :
    (convertSpanRef { RefType := 7, TraceIdLow := 1, TraceIdHigh := 2, SpanId := 3 }).RefType =
      SpanRefType_CHILD_OF :=
  (convertSpanRef_refType_binary
    { RefType := 7, TraceIdLow := 1, TraceIdHigh := 2, SpanId := 3 }).2 (by decide)

/-! ### C4 -/

/-- A reference whose discriminator (2) is neither CHILD_OF (0) nor
FOLLOWS_FROM (1). -/
def c4Ref : SpanRef :=
  { RefType := 2, TraceIdLow := 1, TraceIdHigh := 0, SpanId := 4 }

/-- C4 counterexample: the claim says an unknown discriminator converts
to FOLLOWS_FROM; on `c4Ref` the code produces CHILD_OF instead. -/
theorem convertSpanRef_unknown_not_follows_from :
    c4Ref.RefType ≠ SpanRefType_CHILD_OF ∧
    c4Ref.RefType ≠ SpanRefType_FOLLOWS_FROM ∧
    (convertSpanRef c4Ref).RefType ≠ SpanRefType_FOLLOWS_FROM ∧
    (convertSpanRef c4Ref).RefType = SpanRefType_CHILD_OF := by decide

/-- C4 (amended): a discriminator that is neither CHILD_OF nor
FOLLOWS_FROM converts to CHILD_OF. -/
theorem convertSpanRef_unknown_maps_to_child_of (r : SpanRef)
    (_h1 : r.RefType ≠ SpanRefType_CHILD_OF)
    (h2 : r.RefType ≠ SpanRefType_FOLLOWS_FROM) :
    (convertSpanRef r).RefType = SpanRefType_CHILD_OF := by
  simp [convertSpanRef, h2]

/-- C4 witness: discriminator 3 converts to CHILD_OF. -/
theorem convertSpanRef_unknown_maps_to_child_of_witness :
    (convertSpanRef { RefType := 3, TraceIdLow := 0, TraceIdHigh := 0, SpanId := 0 }).RefType =
      SpanRefType_CHILD_OF :=
  convertSpanRef_unknown_maps_to_child_of
    { RefType := 3, TraceIdLow := 0, TraceIdHigh := 0, SpanId := 0 } (by decide) (by decide)

/-! ### C5 -/

/-- C5: `convertTag` copies the key verbatim and follows the mapping
table — BOOL→BOOL, LONG→INT64, DOUBLE→FLOAT64, BINARY→BINARY, and
STRING together with every unrecognized discriminator→STRING — reading
the payload slot for the discriminated type with the Go zero value when
the optional slot is unset.  Each right-hand record literal leaves every
other payload field at its zero value, and the function is total. -/
theorem convertTag_follows_table (t : Tag) :
    (convertTag t).Key = t.Key ∧
    (t.VType = TagType_BOOL →
      convertTag t = { Key := t.Key, VType := ValueType_BOOL, VBool := t.VBool.getD false }) ∧
    (t.VType = TagType_LONG →
      convertTag t = { Key := t.Key, VType := ValueType_INT64, VInt64 := t.VLong.getD 0 }) ∧
    (t.VType = TagType_DOUBLE →
      convertTag t = { Key := t.Key, VType := ValueType_FLOAT64, VFloat64 := t.VDouble.getD 0 }) ∧
    (t.VType = TagType_BINARY →
      convertTag t = { Key := t.Key, VType := ValueType_BINARY, VBinary := t.VBinary }) ∧
    (t.VType ≠ TagType_BOOL → t.VType ≠ TagType_LONG → t.VType ≠ TagType_DOUBLE →
      t.VType ≠ TagType_BINARY →
      convertTag t = { Key := t.Key, VType := ValueType_STRING, VStr := t.VStr.getD "" }) := by
  refine ⟨?_, ?_, ?_, ?_, ?_, ?_⟩
  · unfold convertTag
    split_ifs <;> rfl
  · intro h
    simp [convertTag, h, TagType_BOOL]
  · intro h
    simp [convertTag, h, TagType_BOOL, TagType_LONG]
  · intro h
    simp [convertTag, h, TagType_BOOL, TagType_LONG, TagType_DOUBLE]
  · intro h
    simp [convertTag, h, TagType_BOOL, TagType_LONG, TagType_DOUBLE, TagType_BINARY]
  · intro h1 h2 h3 h4
    simp [convertTag, h1, h2, h3, h4]

/-- C5 witness: a tag with an unrecognized discriminator (42) and an
unset string slot falls back to the STRING mapping with payload "". -/
theorem convertTag_follows_table_witness :
    convertTag { Key := "k", VType := 42 } =
      { Key := "k", VType := ValueType_STRING, VStr := "" } :=
  (convertTag_follows_table { Key := "k", VType := 42 }).2.2.2.2.2
    (by decide) (by decide) (by decide) (by decide)

/-! ### C6 -/

/-- A span whose microsecond start time, times 1000, overflows `int64`:
`2^60 * 1000` wraps to `-2^63`. -/
def c6Span : Span :=
  { TraceIdLow := 1, TraceIdHigh := 0, SpanId := 2, ParentSpanId := 0
    OperationName := "op"
    StartTime := 1152921504606846976, Duration := 0 }

/-- C6 counterexample: the claim that *every* legacy microsecond value
`v` converts to `v * 1000` nanoseconds fails on `c6Span`, whose start
time `2^60` µs is converted through a wrapping `int64` multiplication. -/
theorem convertSpan_time_overflow :
    (convertSpan c6Span).StartTime ≠ c6Span.StartTime * 1000 := by decide

/-- On the `int64` range the wraparound is the identity. -/
theorem wrap64_eq_self (i : Int) (h1 : -(2 ^ 63) ≤ i) (h2 : i < 2 ^ 63) :
    wrap64 i = i := by
  unfold wrap64
  rw [Int.emod_eq_of_lt (by omega) (by omega)]
  omega

/-- C6 (amended): whenever the product `v * 1000` fits in `int64`, a
microsecond value `v` converts to exactly `v * 1000` nanoseconds — for
the span start time, the span duration, and each log timestamp. -/
theorem convert_times_scale_micro_to_nano (s : Span) (l : Log)
    (hs1 : -(2 ^ 63) ≤ s.StartTime * 1000) (hs2 : s.StartTime * 1000 < 2 ^ 63)
    (hd1 : -(2 ^ 63) ≤ s.Duration * 1000) (hd2 : s.Duration * 1000 < 2 ^ 63)
    (hl1 : -(2 ^ 63) ≤ l.Timestamp * 1000) (hl2 : l.Timestamp * 1000 < 2 ^ 63) :
    (convertSpan s).StartTime = s.StartTime * 1000 ∧
    (convertSpan s).Duration = s.Duration * 1000 ∧
    (convertLog l).Timestamp = l.Timestamp * 1000 ∧
    convertLogs (some [l]) =
      some [{ Timestamp := l.Timestamp * 1000, Fields := convertTags l.Fields }] := by
  refine ⟨wrap64_eq_self _ hs1 hs2, wrap64_eq_self _ hd1 hd2,
    wrap64_eq_self _ hl1 hl2, ?_⟩
  simp [convertLogs, convertLog, wrap64_eq_self _ hl1 hl2]

/-- A span reporting 1 second of start time and 0.5 seconds of duration,
in microseconds. -/
def c6SmallSpan : Span :=
  { TraceIdLow := 1, TraceIdHigh := 0, SpanId := 2, ParentSpanId := 0
    OperationName := "op", StartTime := 1000000, Duration := 500000 }

/-- C6 witness: 10^6 µs becomes 10^9 ns for the start time, 5·10^5 µs
becomes 5·10^8 ns for the duration, and 1000 µs becomes 10^6 ns for a
log timestamp. -/
theorem convert_times_scale_micro_to_nano_witness :
    (convertSpan c6SmallSpan).StartTime = 1000000000 ∧
    (convertSpan c6SmallSpan).Duration = 500000000 ∧
    (convertLog { Timestamp := 1000 }).Timestamp = 1000000 := by
  have h := convert_times_scale_micro_to_nano c6SmallSpan { Timestamp := 1000 }
    (by decide) (by decide) (by decide) (by decide) (by decide) (by decide)
  exact ⟨h.1, h.2.1, h.2.2.1⟩

/-! ### C7 -/

/-- C7: the nil and the empty tag list both convert to the nil list, a
non-empty list converts to its element-wise image under `convertTag` in
order, and the same contract holds for log lists. -/
theorem convertTags_convertLogs_contract :
    convertTags none = none ∧
    convertTags (some ([] : List Tag)) = none ∧
    convertTags none = convertTags (some []) ∧
    (∀ l : List Tag, l ≠ [] → convertTags (some l) = some (l.map convertTag)) ∧
    convertLogs none = none ∧
    convertLogs (some ([] : List Log)) = none ∧
    convertLogs none = convertLogs (some []) ∧
    (∀ l : List Log, l ≠ [] → convertLogs (some l) = some (l.map convertLog)) := by
  refine ⟨rfl, rfl, rfl, ?_, rfl, rfl, rfl, ?_⟩
  · intro l h
    simp [convertTags, List.length_eq_zero, h]
  · intro l h
    simp [convertLogs, List.length_eq_zero, h]

/-- C7 witness: singleton tag and log lists map element-wise. -/
theorem convertTags_convertLogs_contract_witness :
    convertTags (some [{ Key := "k", VType := TagType_BOOL, VBool := some true }]) =
      some [convertTag { Key := "k", VType := TagType_BOOL, VBool := some true }] ∧
    convertLogs (some [{ Timestamp := 7 }]) = some [convertLog { Timestamp := 7 }] :=
  ⟨convertTags_convertLogs_contract.2.2.2.1 _ (by decide),
   convertTags_convertLogs_contract.2.2.2.2.2.2.2 _ (by decide)⟩

/-! ### C8 -/

/-- C8: `convertProcess` never returns the nil pointer; a nil input
yields the empty service name with the absent tag list, and a present
input copies the service name verbatim and converts the tags with
`convertTags`. -/
theorem convertProcess_always_present (p : Option Process) :
    (convertProcess p).isSome = true ∧
    convertProcess none = some { ServiceName := "", Tags := none } ∧
    (∀ q : Process, convertProcess (some q) =
      some { ServiceName := q.ServiceName, Tags := convertTags q.Tags }) := by
  refine ⟨?_, rfl, fun q => rfl⟩
  cases p <;> rfl

/-! ### C9 -/

/-- C9: the trace id halves and span ids of spans and references are
copied through `uint64OfInt`, which preserves the 64-bit pattern (it
agrees with the input modulo 2^64) while reinterpreting it as unsigned,
so a negative input comes out as the non-equal value `i + 2^64`. -/
theorem ids_copied_bit_for_bit (s : Span) (r : SpanRef) :
    (convertSpan s).TraceID =
      { High := uint64OfInt s.TraceIdHigh, Low := uint64OfInt s.TraceIdLow } ∧
    (convertSpan s).SpanID = uint64OfInt s.SpanId ∧
    (convertSpanRef r).TraceID =
      { High := uint64OfInt r.TraceIdHigh, Low := uint64OfInt r.TraceIdLow } ∧
    (convertSpanRef r).SpanID = uint64OfInt r.SpanId ∧
    (∀ i : Int, (uint64OfInt i : Int) % 2 ^ 64 = i % 2 ^ 64) ∧
    (∀ i : Int, -(2 ^ 63) ≤ i → i < 0 →
      (uint64OfInt i : Int) = i + 2 ^ 64 ∧ (uint64OfInt i : Int) ≠ i) := by
  have hpos : (0 : Int) < 2 ^ 64 := by positivity
  have hcast : ∀ i : Int, (uint64OfInt i : Int) = i % 2 ^ 64 := fun i =>
    Int.toNat_of_nonneg (Int.emod_nonneg i (by positivity))
  refine ⟨rfl, rfl, rfl, rfl, fun i => ?_, fun i h1 h2 => ?_⟩
  · rw [hcast, Int.emod_emod_of_dvd i dvd_rfl]
  · have : i % 2 ^ 64 = i + 2 ^ 64 := by omega
    constructor
    · rw [hcast, this]
    · rw [hcast, this]; omega

/-- Concrete span and reference with negative id fields. -/
def c9Span : Span :=
  { TraceIdLow := -1, TraceIdHigh := 0, SpanId := -2, ParentSpanId := 0
    OperationName := "op", StartTime := 0, Duration := 0 }

/-- C9 witness: `-1` reinterprets as `2^64 - 1`, and the converted span
carries exactly the reinterpreted ids. -/
theorem ids_copied_bit_for_bit_witness :
    (uint64OfInt (-1) : Int) = -1 + 2 ^ 64 ∧ (uint64OfInt (-1) : Int) ≠ -1 :=
  (ids_copied_bit_for_bit c9Span
    { RefType := 0, TraceIdLow := -1, TraceIdHigh := 0, SpanId := -2 }).2.2.2.2.2
    (-1) (by norm_num) (by norm_num)

/-! ### C10 -/

/-- C10: the handler writes exactly one status code; it writes 202 iff
the method is POST, the body read succeeds with a non-empty body, the
Thrift buffer write and batch decode succeed, and `PostSpans` succeeds;
otherwise it writes 405 for a non-POST method, 400 for a read error, an
empty body, or a failure in the Thrift decode machinery, and 500 for a
`PostSpans` error. -/
theorem handleTraces_status (req : TraceRequest) :
    (handleTraces req).length = 1 ∧
    (handleTraces req = [StatusAccepted] ↔
      req.method = "POST" ∧
      (∃ d, req.readBody = Except.ok d ∧ d ≠ []) ∧
      (∃ n, req.bufferWrite = Except.ok n) ∧
      (∃ b, req.decodeBatch = Except.ok b) ∧
      req.postSpans = Except.ok ()) ∧
    (req.method ≠ "POST" → handleTraces req = [StatusMethodNotAllowed]) ∧
    (req.method = "POST" → req.readBody = Except.error () →
      handleTraces req = [StatusBadRequest]) ∧
    (req.method = "POST" → req.readBody = Except.ok [] →
      handleTraces req = [StatusBadRequest]) ∧
    (req.method = "POST" → (∃ d, req.readBody = Except.ok d ∧ d ≠ []) →
      (req.bufferWrite = Except.error () ∨ req.decodeBatch = Except.error ()) →
      handleTraces req = [StatusBadRequest]) ∧
    (req.method = "POST" → (∃ d, req.readBody = Except.ok d ∧ d ≠ []) →
      (∃ n, req.bufferWrite = Except.ok n) → (∃ b, req.decodeBatch = Except.ok b) →
      req.postSpans = Except.error () →
      handleTraces req = [StatusInternalServerError]) := by
  obtain ⟨m, rb, bc, bw, db, ps⟩ := req
  by_cases hm : m = "POST"
  · subst hm
    rcases rb with ⟨⟩ | d
    · simp [handleTraces, StatusAccepted, StatusBadRequest]
    · by_cases hd : d = []
      · subst hd
        simp [handleTraces, StatusAccepted, StatusBadRequest]
      · rcases bw with ⟨⟩ | n
        · simp [handleTraces, List.length_eq_zero, hd,
            StatusAccepted, StatusBadRequest]
        · rcases db with ⟨⟩ | b
          · simp [handleTraces, List.length_eq_zero, hd,
              StatusAccepted, StatusBadRequest]
          · rcases ps with ⟨⟩ | ⟨⟩
            · simp [handleTraces, List.length_eq_zero, hd,
                StatusAccepted, StatusInternalServerError]
            · simp [handleTraces, List.length_eq_zero, hd]
  · simp [handleTraces, hm, StatusAccepted, StatusMethodNotAllowed]

/-- A POST request whose body reads and decodes fine but whose gRPC
submission fails. -/
def c10Req : TraceRequest :=
  { method := "POST", readBody := Except.ok [1], bodyClose := Except.ok ()
    bufferWrite := Except.ok 1, decodeBatch := Except.ok { Spans := [], Process := none }
    postSpans := Except.error () }

/-- C10 witness: the submission failure yields exactly one 500. -/
theorem handleTraces_status_witness :
    handleTraces c10Req = [StatusInternalServerError] :=
  (handleTraces_status c10Req).2.2.2.2.2.2 rfl
    ⟨[1], rfl, by decide⟩ ⟨1, rfl⟩ ⟨{ Spans := [], Process := none }, rfl⟩ rfl

end JaegerBridge
